import Mathlib

/-!
Verification of the SCPI command/response layer of `rigol.py`: the
write-then-verify engine (`BaseVisaDevice.write` / `reset`), the
per-instrument command construction and channel validation
(`RigolDP832`, `Rigol1054Z`), and the waveform sample decoder
(`Rigol1054Z.get_samples` and its inner `conv_string`).

Modelling conventions.  The transport is modelled by the trace of
events the layer emits (`Event`): raw `device.write` calls, fixed
`time.sleep` pauses (durations in milliseconds, so `time.sleep(0.1)`
is `sleep 100`), the `device.ask` error query, and
`device.query_ascii_values` queries.  Device replies are explicit
inputs of the model wherever the Python code inspects them: the
`SYST:ERR?` reply string for `write`, and the comma-separated token
list of the waveform reply for `get_samples`.  Python floats are
modelled as rationals, and `float()` applied to a string is modelled
on the decimal-literal fragment it accepts (optional sign, digits,
decimal point, exponent, surrounding whitespace); the `inf`/`nan`
words and digit underscores are outside the fragment any token in
this development exercises.
-/

/-- Python exceptions that the modelled code can raise. -/
inductive PyExn where
  | runtimeError (msg : String)
  | keyError (key : String)
  | attributeError (attr : String)
  | indexError
  deriving DecidableEq

/-- One observable interaction of the layer with the instrument:
a raw `device.write`, a `time.sleep` (milliseconds), a `device.ask`
query, or a `device.query_ascii_values` query. -/
inductive Event where
  | wr (msg : String)
  | sleep (ms : Nat)
  | ask (q : String)
  | queryAscii (q : String)
  deriving DecidableEq

/-- Characters removed by Python `str.strip()` (ASCII whitespace). -/
def pyIsSpace (c : Char) : Bool :=
  c = ' ' ∨ c = '\t' ∨ c = '\n' ∨ c = '\r' ∨ c = '\x0b' ∨ c = '\x0c'

/-- `str.strip()` on the character list of a string. -/
def stripChars (cs : List Char) : List Char :=
  ((cs.dropWhile pyIsSpace).reverse.dropWhile pyIsSpace).reverse

/-- Python `str.strip()`. -/
def pyStrip (s : String) : String := String.mk (stripChars s.data)

/-- ASCII case mapping of `str.lower()` (the repository only passes
ASCII arguments). -/
def pyLowerChar (c : Char) : Char :=
  if 'A' ≤ c ∧ c ≤ 'Z' then Char.ofNat (c.toNat + 32) else c

/-- ASCII case mapping of `str.upper()`. -/
def pyUpperChar (c : Char) : Char :=
  if 'a' ≤ c ∧ c ≤ 'z' then Char.ofNat (c.toNat - 32) else c

/-- Python `str.lower()` (ASCII fragment). -/
def pyLower (s : String) : String := String.mk (s.data.map pyLowerChar)

/-- Python `str.upper()` (ASCII fragment). -/
def pyUpper (s : String) : String := String.mk (s.data.map pyUpperChar)

/-- Decimal rendering of a natural number, as Python `str`/`format`
produce for a nonnegative `int`. -/
def natStr (n : Nat) : String := String.mk (Nat.toDigits 10 n)

/-- Decimal rendering of a Python `int` (minus sign for negatives),
as substituted by `"...".format(channel)`. -/
def intStr (n : Int) : String :=
  match n with
  | .ofNat m => natStr m
  | .negSucc m => "-" ++ natStr (m + 1)

/-- Value of a list of decimal digit characters. -/
def digitsVal (cs : List Char) : Nat :=
  cs.foldl (fun a c => 10 * a + (c.toNat - 48)) 0

/-- Split a character list at the first exponent marker `e`/`E`,
returning the mantissa part and, when a marker is present, the
exponent part. -/
def splitAtExpMarker : List Char → List Char × Option (List Char)
  | [] => ([], none)
  | c :: cs =>
    if c = 'e' ∨ c = 'E' then ([], some cs)
    else
      let r := splitAtExpMarker cs
      (c :: r.1, r.2)

/-- Unsigned mantissa of a Python float literal: digits, optionally a
decimal point with optional further digits, at least one digit in
total (`1.23`, `1.`, `.5`, `7`). -/
def parseMantissaBody (cs : List Char) : Option ℚ :=
  let ip := cs.takeWhile Char.isDigit
  let rest := cs.dropWhile Char.isDigit
  match rest with
  | [] => if ip = [] then none else some (digitsVal ip : ℚ)
  | '.' :: fp =>
    if fp.all Char.isDigit ∧ (ip ≠ [] ∨ fp ≠ []) then
      some ((digitsVal ip : ℚ) + (digitsVal fp : ℚ) / (10 : ℚ) ^ fp.length)
    else none
  | _ => none

/-- Mantissa with optional leading sign. -/
def parseSignedMantissa : List Char → Option ℚ
  | '+' :: cs => parseMantissaBody cs
  | '-' :: cs => (parseMantissaBody cs).map (fun v => -v)
  | cs => parseMantissaBody cs

/-- Exponent of a Python float literal: optional sign then at least
one digit. -/
def parseExpDigits : List Char → Option Int
  | '+' :: cs => if cs ≠ [] ∧ cs.all Char.isDigit then some (digitsVal cs : Int) else none
  | '-' :: cs => if cs ≠ [] ∧ cs.all Char.isDigit then some (-(digitsVal cs : Int)) else none
  | cs => if cs ≠ [] ∧ cs.all Char.isDigit then some (digitsVal cs : Int) else none

/-- Python `float(string)` on the decimal-literal fragment: strips
surrounding whitespace, splits at the first exponent marker, and
requires a signed mantissa and, when a marker is present, a
well-formed exponent; `none` models `ValueError`. -/
def pyFloat? (cs : List Char) : Option ℚ :=
  let t := stripChars cs
  let p := splitAtExpMarker t
  match parseSignedMantissa p.1, p.2 with
  | some v, none => some v
  | some v, some ecs => (parseExpDigits ecs).map (fun n => v * (10 : ℚ) ^ n)
  | none, _ => none

/-- The header strip of `conv_string`: when the token starts with the
block marker `#`, Python's `string[11:]` removes its first eleven
characters. -/
def headerStrip (cs : List Char) : List Char :=
  match cs with
  | '#' :: _ => cs.drop 11
  | _ => cs

/-- Model of `Rigol1054Z.get_samples.conv_string` (rigol.py lines
163-175).  Whitespace-only tokens go to the warning branch and yield
`None`; a token starting with `#` has its first eleven characters
removed; then `float` is attempted, its failure also yielding `None`.
The source line `string.replace("ee", "e")` discards its result
(Python strings are immutable and the return value is not assigned),
so it has no effect and no counterpart here. -/
def conv_string (s : String) : Option ℚ :=
  if stripChars s.data = [] then none
  else pyFloat? (headerStrip s.data)

/-- `time.sleep(0.1)` after every engine write, in milliseconds. -/
def writeDelayMs : Nat := 100

/-- `time.sleep(0.2)` at the end of `reset`, in milliseconds. -/
def resetSettleMs : Nat := 200

/-- The standard SCPI error-verification query issued by the engine. -/
def errQuery : String := "SYST:ERR?"

/-- Events emitted by `BaseVisaDevice.write` (rigol.py lines 30-33):
the raw write, the fixed delay, and the error query.  Both reply
classification branches return after the query without further
events; the classification itself is `write_report`. -/
def writeTrace (msg : String) : List Event :=
  [.wr msg, .sleep writeDelayMs, .ask errQuery]

/-- Events emitted by `BaseVisaDevice.reset` (rigol.py lines 41-44):
an engine write of `*RST` followed by the longer settle delay. -/
def resetTrace : List Event := writeTrace "*RST" ++ [.sleep resetSettleMs]

/-- The two shapes of value `BaseVisaDevice.write` can return: the
literal `0`, or `error[0]` (a one-character string). -/
inductive WriteRet where
  | num (n : Nat)
  | str (s : String)
  deriving DecidableEq

/-- Python truthiness of a string: nonempty strings are truthy. -/
def pyTruthyStr (s : String) : Bool := s ≠ ""

/-- Classification a `BaseVisaDevice.write` call performs on the
`SYST:ERR?` reply (rigol.py lines 33-39).  `device.ask` returns the
reply as a string, so `error[0]` is its first character: on an empty
reply the subscript raises `IndexError`; otherwise `if error[0]:`
tests the truthiness of a one-character string, which always holds,
so the call prints the no-error message and returns `0`.  The `else`
branch (print the error, return `error[0]`) is kept for fidelity but
is unreachable over string replies. -/
def write_report (reply : String) : Except PyExn WriteRet :=
  match reply.data with
  | [] => .error .indexError
  | c :: _ =>
    if pyTruthyStr (String.mk [c]) then .ok (.num 0)
    else .ok (.str (String.mk [c]))

/-- Is this event the error-verification query? -/
def isErrQuery : Event → Bool
  | .ask q => q = errQuery
  | _ => false

/-- Every raw write in the trace is followed, later in the trace, by
the error-verification query. -/
def everyWriteChecked : List Event → Bool
  | [] => true
  | .wr _ :: rest => rest.any isErrQuery && everyWriteChecked rest
  | _ :: rest => everyWriteChecked rest

/-- Total milliseconds slept along a trace. -/
def totalSleepMs : List Event → Nat
  | [] => 0
  | .sleep ms :: rest => ms + totalSleepMs rest
  | _ :: rest => totalSleepMs rest

namespace RigolDP832

/-- `RigolDP832.turn_off` (rigol.py lines 64-67): validate the
channel against 1..3, then engine-write the OFF command. -/
def turn_off (channel : Int) : List Event × Except PyExn Unit :=
  if channel ≤ 0 ∨ 3 < channel then ([], .error (.runtimeError "Invalid channel!"))
  else (writeTrace (":OUTP CH" ++ intStr channel ++ ",OFF"), .ok ())

/-- `RigolDP832.turn_on` (rigol.py lines 69-72). -/
def turn_on (channel : Int) : List Event × Except PyExn Unit :=
  if channel ≤ 0 ∨ 3 < channel then ([], .error (.runtimeError "Invalid channel!"))
  else (writeTrace (":OUTP CH" ++ intStr channel ++ ",ON"), .ok ())

/-- `RigolDP832.measure_voltage` (rigol.py lines 74-77): builds the
query with the AC/DC selector and the unvalidated channel; the
numeric reply it returns is determined by the instrument and is not
modelled beyond the emitted query. -/
def measure_voltage (channel : Int) (dc : Bool) : List Event :=
  [.queryAscii (":MEAS:VOLT" ++ (if dc then ":DC" else "") ++ "? CH" ++ intStr channel)]

/-- `RigolDP832.measure_current` (rigol.py lines 79-82). -/
def measure_current (channel : Int) (dc : Bool) : List Event :=
  [.queryAscii (":MEAS:CURR" ++ (if dc then ":DC" else "") ++ "? CH" ++ intStr channel)]

/-- `RigolDP832.measure_power` (rigol.py lines 84-87). -/
def measure_power (channel : Int) (dc : Bool) : List Event :=
  [.queryAscii (":MEAS:ALL" ++ (if dc then ":DC" else "") ++ "? CH" ++ intStr channel)]

end RigolDP832

namespace Rigol1054Z

/-- Display-grid constant (rigol.py line 91). -/
def DIVS_VERTICAL : Nat := 8

/-- Display-grid constant (rigol.py line 92). -/
def DIVS_HORIZONTAL : Nat := 12

/-- `Rigol1054Z.turn_on` (rigol.py lines 107-110): validate the
channel against 1..4, then engine-write the display-on command. -/
def turn_on (channel : Int) : List Event × Except PyExn Unit :=
  if channel ≤ 0 ∨ 4 < channel then ([], .error (.runtimeError "Invalid channel!"))
  else (writeTrace (":CHAN" ++ intStr channel ++ ":DISP ON"), .ok ())

/-- `Rigol1054Z.turn_off` (rigol.py lines 112-115). -/
def turn_off (channel : Int) : List Event × Except PyExn Unit :=
  if channel ≤ 0 ∨ 4 < channel then ([], .error (.runtimeError "Invalid channel!"))
  else (writeTrace (":CHAN" ++ intStr channel ++ ":DISP OFF"), .ok ())

/-- `Rigol1054Z.channel_scale_set` (rigol.py lines 117-119).  The
numeric argument appears in the command through Python `format`; it
is modelled by its printed form `scale_factor`.  No channel
validation is performed. -/
def channel_scale_set (channel : Int) (scale_factor : String) :
    List Event × Except PyExn Unit :=
  (writeTrace (":CHAN" ++ intStr channel ++ ":SCAL " ++ scale_factor), .ok ())

/-- `Rigol1054Z.channel_scale_get` (rigol.py lines 121-123): a plain
query; the scalar it returns comes from the instrument. -/
def channel_scale_get (channel : Int) : List Event :=
  [.queryAscii (":CHAN" ++ intStr channel ++ ":SCAL?")]

/-- `Rigol1054Z.channel_offset_set` (rigol.py lines 125-127). -/
def channel_offset_set (channel : Int) (offset : String) :
    List Event × Except PyExn Unit :=
  (writeTrace (":CHAN" ++ intStr channel ++ ":OFFS " ++ offset), .ok ())

/-- `Rigol1054Z.channel_offset_get` (rigol.py lines 129-132): reads
the waveform Y-origin register, ignoring the channel argument. -/
def channel_offset_get (_channel : Int) : List Event :=
  [.queryAscii ":WAV:YOR?"]

/-- `Rigol1054Z.timescale` (rigol.py lines 134-136); the numeric
argument is modelled by its printed form. -/
def timescale (ts : String) : List Event × Except PyExn Unit :=
  (writeTrace (":TIM:SCAL " ++ ts), .ok ())

/-- `Rigol1054Z.trigger_offset` (rigol.py lines 138-140). -/
def trigger_offset (time_offset : String) : List Event × Except PyExn Unit :=
  (writeTrace (":TIM:OFFS " ++ time_offset), .ok ())

/-- `Rigol1054Z.capture_start` (rigol.py lines 142-143). -/
def capture_start : List Event × Except PyExn Unit := (writeTrace ":START", .ok ())

/-- `Rigol1054Z.capture_stop` (rigol.py lines 145-146). -/
def capture_stop : List Event × Except PyExn Unit := (writeTrace ":STOP", .ok ())

/-- The `type_lookup` dictionary of `trigger_edge_config` (line 149);
a missing key raises `KeyError`. -/
def type_lookup (k : String) : Option String :=
  if k = "single" then some "SING" else none

/-- The `slope_lookup` dictionary of `trigger_edge_config` (line 150). -/
def slope_lookup (k : String) : Option String :=
  if k = "falling" then some "NEG" else if k = "rising" then some "POS" else none

/-- Model of the Python expression `':TRIG:EDGE:LEV \x7b.5f\x7d'.format(float(level))`
on rigol.py line 160.  The replacement field `.5f` contains no colon,
so Python parses all of it as the field name: positional argument 0
followed by attribute access `getattr(arg, "5f")`.  A float has no
attribute `5f`, so the call raises `AttributeError` for every level
(the intended spec `\x7b:.5f\x7d` would instead render five decimals). -/
def formatLevel5f (_level : ℚ) : Except PyExn String :=
  .error (.attributeError "5f")

/-- `Rigol1054Z.trigger_edge_config` (rigol.py lines 148-160):
coupling check, slope and type dictionary lookups, then four engine
writes; the fifth write's argument raises inside `format` (see
`formatLevel5f`), so the level command is never reached.  The channel
is not validated. -/
def trigger_edge_config (channel : Int) (level : ℚ)
    (trig_type : String) (coupling : String) (slope : String) :
    List Event × Except PyExn Unit :=
  let c := pyUpper (pyStrip coupling)
  if c ≠ "DC" ∧ c ≠ "AC" then
    ([], .error (.runtimeError "Invalid coupling type!"))
  else
    match slope_lookup (pyLower (pyStrip slope)) with
    | none => ([], .error (.keyError (pyLower (pyStrip slope))))
    | some sl =>
      match type_lookup (pyLower (pyStrip trig_type)) with
      | none => ([], .error (.keyError (pyLower (pyStrip trig_type))))
      | some tt =>
        match formatLevel5f level with
        | .error e =>
          (writeTrace (":TRIG:EDGE:SOUR CHAN" ++ intStr channel) ++
             writeTrace (":TRIG:EDGE:SWE " ++ tt) ++
             writeTrace (":TRIG:EDGE:COUP " ++ c) ++
             writeTrace (":TRIG:EDGE:SLOP " ++ sl),
           .error e)
        | .ok lv =>
          (writeTrace (":TRIG:EDGE:SOUR CHAN" ++ intStr channel) ++
             writeTrace (":TRIG:EDGE:SWE " ++ tt) ++
             writeTrace (":TRIG:EDGE:COUP " ++ c) ++
             writeTrace (":TRIG:EDGE:SLOP " ++ sl) ++
             writeTrace (":TRIG:EDGE:LEV " ++ lv),
           .ok ())

/-- `Rigol1054Z.get_samples` (rigol.py lines 162-180): one engine
write, one raw `device.write` with no error check, then the waveform
query whose comma-separated reply tokens (`tokens`) are each mapped
through `conv_string` by `query_ascii_values`.  The `channel`
argument is never used: the query names `CHAN1` literally. -/
def get_samples (channel : Int) (tokens : List String) :
    List Event × List (Option ℚ) :=
  (writeTrace ":WAV:FORM ASCII" ++
     [.wr ":WAV:POIN:MODE RAW", .queryAscii ":WAV:DATA? CHAN1"],
   tokens.map conv_string)

/-- `Rigol1054Z.samplerate_get` (rigol.py lines 182-183). -/
def samplerate_get : List Event := [.queryAscii ":ACQ:SAMP?"]

end Rigol1054Z

/-! Helper lemmas. -/

/-- A trace that begins with an engine write is checked exactly when
its continuation is: the engine write itself is always followed by
the error query it emits. -/
theorem everyWriteChecked_writeTrace_append (m : String) (t : List Event) :
    everyWriteChecked (writeTrace m ++ t) = everyWriteChecked t := rfl

/-- A lone engine write is always checked. -/
theorem everyWriteChecked_writeTrace (m : String) :
    everyWriteChecked (writeTrace m) = true := rfl

/-- The decoder parses the well-formed token `1.23`. -/
theorem conv_string_val_123 : conv_string "1.23" = some 1.23 := by
  have h : conv_string "1.23" =
      some ((digitsVal ['1'] : ℚ) + (digitsVal ['2', '3'] : ℚ) / (10 : ℚ) ^ 2) := rfl
  have e1 : digitsVal ['1'] = 1 := by decide
  have e2 : digitsVal ['2', '3'] = 23 := by decide
  rw [h, e1, e2]
  norm_num

/-! Claims. -/

/-- Claim C1: the claim expects `write` to return the "ok" report
exactly when the instrument reports no error and a non-"ok" report
carrying the message when the error reply is non-empty.  The code
instead tests `if error[0]:` on the reply string, which holds for
every non-empty reply, so the error reply `1,"Undefined header"` is
classified exactly like the no-error reply `0,"No error"`: the call
prints the no-error message and returns `0`. -/
theorem C1_error_reply_reported_ok :
    write_report "1,\"Undefined header\"" = .ok (.num 0) ∧
    write_report "0,\"No error\"" = .ok (.num 0) := ⟨rfl, rfl⟩

/-- Claim C2: on the token list `["#800000005", "1.23", "", "4.5ee6",
"bad"]` the claim expects the decoded sequence `[1.23, 4.5e6]`.  The
code instead produces `[None, 1.23, None, None, None]`: the result of
`string.replace("ee", "e")` is discarded so `4.5ee6` stays
unparseable, and the `None` sentinels of the malformed tokens are
retained in the list `query_ascii_values` returns. -/
theorem C2_decode_example :
    (Rigol1054Z.get_samples 1 ["#800000005", "1.23", "", "4.5ee6", "bad"]).2 =
      [none, some 1.23, none, none, none] ∧
    (Rigol1054Z.get_samples 1 ["#800000005", "1.23", "", "4.5ee6", "bad"]).2 ≠
      [some 1.23, some 4500000] := by
  have h : (Rigol1054Z.get_samples 1 ["#800000005", "1.23", "", "4.5ee6", "bad"]).2 =
      [conv_string "#800000005", conv_string "1.23", conv_string "",
       conv_string "4.5ee6", conv_string "bad"] := rfl
  have h0 : conv_string "#800000005" = none := by decide
  have h2 : conv_string "" = none := by decide
  have h3 : conv_string "4.5ee6" = none := by decide
  have h4 : conv_string "bad" = none := by decide
  rw [h, h0, conv_string_val_123, h2, h3, h4]
  simp

/-- Claim C3: the claim expects `trigger_edge_config(1, level,
slope="rising")` to issue, without raising, a level command holding
the level to five decimal places.  The code's format string for the
level command is `:TRIG:EDGE:LEV` followed by the field `.5f` with no
colon, so Python resolves `5f` as an attribute of the float and
raises `AttributeError` for every level, after the four preceding
configuration writes. -/
theorem C3_level_format_raises (level : ℚ) :
    Rigol1054Z.trigger_edge_config 1 level "single" "DC" "rising" =
      (writeTrace ":TRIG:EDGE:SOUR CHAN1" ++ writeTrace ":TRIG:EDGE:SWE SING" ++
         writeTrace ":TRIG:EDGE:COUP DC" ++ writeTrace ":TRIG:EDGE:SLOP POS",
       .error (.attributeError "5f")) := rfl

/-- Claim C4, counterexample: `get_samples` writes
`:WAV:POIN:MODE RAW` directly on the device, and no error-verification
query follows it before the operation returns, so not every mutating
command written to the instrument is error-checked. -/
theorem C4_counterexample_unchecked_write :
    everyWriteChecked (Rigol1054Z.get_samples 1 []).1 = false := rfl

/-- Claim C4, amended: every command written through the engine's
`write` is followed by the error-verification query before the
operation returns — which covers every modelled operation of both
variants — except `get_samples`, whose direct `device.write` of
`:WAV:POIN:MODE RAW` is never followed by an error check. -/
theorem C4_amended_engine_writes_checked (c : Int) (dc : Bool) (v : String)
    (level : ℚ) (tt cpl sl : String) (tokens : List String) :
    everyWriteChecked (RigolDP832.turn_on c).1 = true ∧
    everyWriteChecked (RigolDP832.turn_off c).1 = true ∧
    everyWriteChecked (RigolDP832.measure_voltage c dc) = true ∧
    everyWriteChecked (RigolDP832.measure_current c dc) = true ∧
    everyWriteChecked (RigolDP832.measure_power c dc) = true ∧
    everyWriteChecked resetTrace = true ∧
    everyWriteChecked (Rigol1054Z.turn_on c).1 = true ∧
    everyWriteChecked (Rigol1054Z.turn_off c).1 = true ∧
    everyWriteChecked (Rigol1054Z.channel_scale_set c v).1 = true ∧
    everyWriteChecked (Rigol1054Z.channel_scale_get c) = true ∧
    everyWriteChecked (Rigol1054Z.channel_offset_set c v).1 = true ∧
    everyWriteChecked (Rigol1054Z.channel_offset_get c) = true ∧
    everyWriteChecked (Rigol1054Z.timescale v).1 = true ∧
    everyWriteChecked (Rigol1054Z.trigger_offset v).1 = true ∧
    everyWriteChecked Rigol1054Z.capture_start.1 = true ∧
    everyWriteChecked Rigol1054Z.capture_stop.1 = true ∧
    everyWriteChecked (Rigol1054Z.trigger_edge_config c level tt cpl sl).1 = true ∧
    everyWriteChecked Rigol1054Z.samplerate_get = true ∧
    everyWriteChecked (Rigol1054Z.get_samples c tokens).1 = false ∧
    Event.wr ":WAV:POIN:MODE RAW" ∈ (Rigol1054Z.get_samples c tokens).1 := by
  refine ⟨?_, ?_, rfl, rfl, rfl, rfl, ?_, ?_, rfl, rfl, rfl, rfl, rfl, rfl,
    rfl, rfl, ?_, rfl, rfl, ?_⟩
  · by_cases h : c ≤ 0 ∨ 3 < c <;>
      simp [RigolDP832.turn_on, h, everyWriteChecked, everyWriteChecked_writeTrace]
  · by_cases h : c ≤ 0 ∨ 3 < c <;>
      simp [RigolDP832.turn_off, h, everyWriteChecked, everyWriteChecked_writeTrace]
  · by_cases h : c ≤ 0 ∨ 4 < c <;>
      simp [Rigol1054Z.turn_on, h, everyWriteChecked, everyWriteChecked_writeTrace]
  · by_cases h : c ≤ 0 ∨ 4 < c <;>
      simp [Rigol1054Z.turn_off, h, everyWriteChecked, everyWriteChecked_writeTrace]
  · by_cases hc : (pyUpper (pyStrip cpl) ≠ "DC" ∧ pyUpper (pyStrip cpl) ≠ "AC")
    · simp [Rigol1054Z.trigger_edge_config, hc, everyWriteChecked]
    · cases h1 : Rigol1054Z.slope_lookup (pyLower (pyStrip sl)) with
      | none => simp [Rigol1054Z.trigger_edge_config, hc, h1, everyWriteChecked]
      | some s1 =>
        cases h2 : Rigol1054Z.type_lookup (pyLower (pyStrip tt)) with
        | none => simp [Rigol1054Z.trigger_edge_config, hc, h1, h2, everyWriteChecked]
        | some t2 =>
          simp [Rigol1054Z.trigger_edge_config, hc, h1, h2,
            Rigol1054Z.formatLevel5f, List.append_assoc,
            everyWriteChecked_writeTrace_append, everyWriteChecked_writeTrace]
  · simp [Rigol1054Z.get_samples, writeTrace]

/-- Claim C5: for both variants, `turn_on` and `turn_off` validation
succeeds exactly on channels 1..3 (power supply) and 1..4
(oscilloscope), and outside the range the call fails with the
invalid-channel error before any command is sent (empty trace).  The
boundary cases of the claim — 0 and 4 for the supply, 5 for the
scope — are instances of the quantified statement. -/
theorem C5_channel_validation (c : Int) :
    ((RigolDP832.turn_on c).2 = .ok () ↔ 1 ≤ c ∧ c ≤ 3) ∧
    (RigolDP832.turn_on c = ([], .error (.runtimeError "Invalid channel!")) ↔
      ¬(1 ≤ c ∧ c ≤ 3)) ∧
    ((RigolDP832.turn_off c).2 = .ok () ↔ 1 ≤ c ∧ c ≤ 3) ∧
    (RigolDP832.turn_off c = ([], .error (.runtimeError "Invalid channel!")) ↔
      ¬(1 ≤ c ∧ c ≤ 3)) ∧
    ((Rigol1054Z.turn_on c).2 = .ok () ↔ 1 ≤ c ∧ c ≤ 4) ∧
    (Rigol1054Z.turn_on c = ([], .error (.runtimeError "Invalid channel!")) ↔
      ¬(1 ≤ c ∧ c ≤ 4)) ∧
    ((Rigol1054Z.turn_off c).2 = .ok () ↔ 1 ≤ c ∧ c ≤ 4) ∧
    (Rigol1054Z.turn_off c = ([], .error (.runtimeError "Invalid channel!")) ↔
      ¬(1 ≤ c ∧ c ≤ 4)) := by
  by_cases h3 : c ≤ 0 ∨ 3 < c <;> by_cases h4 : c ≤ 0 ∨ 4 < c <;>
    simp [RigolDP832.turn_on, RigolDP832.turn_off, Rigol1054Z.turn_on,
      Rigol1054Z.turn_off, h3, h4, writeTrace, Prod.ext_iff] <;>
    omega

/-- Claim C6, counterexample: `channel_scale_set` performs no channel
validation — called with channel 99 it succeeds and the command
`:CHAN99:SCAL 0.5` is written to the transport. -/
theorem C6_counterexample_invalid_channel_sent :
    (Rigol1054Z.channel_scale_set 99 "0.5").2 = .ok () ∧
    Event.wr ":CHAN99:SCAL 0.5" ∈ (Rigol1054Z.channel_scale_set 99 "0.5").1 :=
  ⟨rfl, by decide⟩

/-- Claim C6, amended: only `turn_on`/`turn_off` validate the channel
against the family range; the scale and offset setters and getters,
edge-trigger configuration, sample retrieval, and the supply's
measurement queries build and send their command strings for every
channel value, with no validation, so invalid channel numbers do
reach the transport. -/
theorem C6_amended_only_toggle_validates (c : Int) (dc : Bool) (v : String)
    (level : ℚ) (tokens : List String) :
    ((Rigol1054Z.turn_on c).2 = .ok () ↔ 1 ≤ c ∧ c ≤ 4) ∧
    ((RigolDP832.turn_on c).2 = .ok () ↔ 1 ≤ c ∧ c ≤ 3) ∧
    (Rigol1054Z.channel_scale_set c v).2 = .ok () ∧
    (Rigol1054Z.channel_scale_set c v).1 =
      writeTrace (":CHAN" ++ intStr c ++ ":SCAL " ++ v) ∧
    (Rigol1054Z.channel_offset_set c v).2 = .ok () ∧
    (Rigol1054Z.channel_offset_set c v).1 =
      writeTrace (":CHAN" ++ intStr c ++ ":OFFS " ++ v) ∧
    Rigol1054Z.channel_scale_get c =
      [.queryAscii (":CHAN" ++ intStr c ++ ":SCAL?")] ∧
    (Rigol1054Z.trigger_edge_config c level "single" "DC" "rising").1 =
      writeTrace (":TRIG:EDGE:SOUR CHAN" ++ intStr c) ++
        writeTrace ":TRIG:EDGE:SWE SING" ++ writeTrace ":TRIG:EDGE:COUP DC" ++
        writeTrace ":TRIG:EDGE:SLOP POS" ∧
    Rigol1054Z.get_samples c tokens = Rigol1054Z.get_samples 1 tokens ∧
    RigolDP832.measure_voltage c dc =
      [.queryAscii (":MEAS:VOLT" ++ (if dc then ":DC" else "") ++ "? CH" ++ intStr c)] := by
  refine ⟨?_, ?_, rfl, rfl, rfl, rfl, rfl, rfl, rfl, rfl⟩
  · by_cases h : c ≤ 0 ∨ 4 < c <;>
      simp [Rigol1054Z.turn_on, h, writeTrace, Prod.ext_iff] <;> omega
  · by_cases h : c ≤ 0 ∨ 3 < c <;>
      simp [RigolDP832.turn_on, h, writeTrace, Prod.ext_iff] <;> omega

/-- Claim C7: `get_samples` neither validates nor uses its channel
argument — its whole behaviour (trace and decoded output) is the same
for any two channel arguments, and the waveform query it issues names
channel 1 literally. -/
theorem C7_get_samples_channel_ignored (c c' : Int) (tokens : List String) :
    Rigol1054Z.get_samples c tokens = Rigol1054Z.get_samples c' tokens ∧
    Event.queryAscii ":WAV:DATA? CHAN1" ∈ (Rigol1054Z.get_samples c tokens).1 := by
  refine ⟨rfl, ?_⟩
  simp [Rigol1054Z.get_samples, writeTrace]

/-- Claim C8: every engine write sleeps the short fixed delay between
the command write and the error query; `reset` engine-writes `*RST`
and then sleeps the longer settle delay, so both that further delay
and the total wait of a reset strictly exceed the ordinary post-write
delay. -/
theorem C8_write_reset_delays (msg : String) :
    writeTrace msg = [.wr msg, .sleep writeDelayMs, .ask "SYST:ERR?"] ∧
    resetTrace = writeTrace "*RST" ++ [.sleep resetSettleMs] ∧
    writeDelayMs < resetSettleMs ∧
    writeDelayMs < totalSleepMs resetTrace :=
  ⟨rfl, rfl, by decide, by decide⟩

/-- Claim C9: on the power supply, `turn_on(2)` and `turn_off(2)`
build two distinct commands sharing the stem `:OUTP CH2,` and
differing only in the final ON/OFF token, each containing the channel
digit 2. -/
theorem C9_on_off_round_trip :
    (RigolDP832.turn_on 2).1 = writeTrace (":OUTP CH2," ++ "ON") ∧
    (RigolDP832.turn_off 2).1 = writeTrace (":OUTP CH2," ++ "OFF") ∧
    (":OUTP CH2," ++ "ON" : String) ≠ ":OUTP CH2," ++ "OFF" ∧
    '2' ∈ (":OUTP CH2," ++ "ON" : String).data ∧
    '2' ∈ (":OUTP CH2," ++ "OFF" : String).data := by decide

/-- Claim C10: the decoded output of `get_samples` is the tokenwise
image of `conv_string`, so its length equals the total token count,
and every token that is empty or whitespace-only, or whose
header-stripped text fails float parsing, is mapped to the sentinel
`none` kept in place. -/
theorem C10_none_placeholders (c : Int) (tokens : List String) :
    (Rigol1054Z.get_samples c tokens).2 = tokens.map conv_string ∧
    ((Rigol1054Z.get_samples c tokens).2).length = tokens.length ∧
    ∀ s : String,
      (stripChars s.data = [] ∨ pyFloat? (headerStrip s.data) = none) →
      conv_string s = none := by
  refine ⟨rfl, by simp [Rigol1054Z.get_samples], ?_⟩
  intro s h
  rcases h with h | h
  · simp [conv_string, h]
  · by_cases h0 : stripChars s.data = []
    · simp [conv_string, h0]
    · simp [conv_string, h0, h]

/-- Witness for C10 at the concrete token `4.5ee6`, whose doubled
exponent marker makes float parsing fail, so the decoder maps it to
`none`. -/
theorem C10_none_placeholders_witness : conv_string "4.5ee6" = none :=
  (C10_none_placeholders 1 []).2.2 "4.5ee6" (Or.inr (by decide))
